import Mathlib

/-
  Verification development for the wynd-mcp-server repository.

  The TypeScript source is shallowly embedded: JSON runtime values become
  the inductive JVal; the axios-based backend client becomes a pure
  function from requests to responses; every try/catch becomes an
  explicit match on Except; keys whose value is the JS undefined are
  modelled as absent entries, matching what JSON serialization sends on
  the wire.
-/

namespace Wynd

/-- JSON-compatible runtime values as they flow through the adapter. -/
inductive JVal where
  | null
  | bool (b : Bool)
  | num (n : Int)
  | str (s : String)
  | arr (elems : List JVal)
  | obj (fields : List (String × JVal))
deriving Repr, Inhabited

/-- JavaScript truthiness of a JSON value. Arrays and objects are always
truthy, even when empty. -/
def jtruthy : JVal → Bool
  | .null => false
  | .bool b => b
  | .num n => n != 0
  | .str s => s != ""
  | .arr _ => true
  | .obj _ => true

/-- Truthiness of a possibly-undefined value (undefined is falsy). -/
def jtruthyOpt : Option JVal → Bool
  | some v => jtruthy v
  | none => false

/-- Property lookup on an association list of object fields. -/
def getKey (l : List (String × JVal)) (k : String) : Option JVal :=
  (l.find? (fun kv => kv.1 == k)).map (fun kv => kv.2)

/-- Drop every binding of a key. -/
def removeKey (l : List (String × JVal)) (k : String) : List (String × JVal) :=
  l.filter (fun kv => kv.1 != k)

/-- Spread-style override: replace the first binding of the key in place
(discarding later duplicates) or append it when absent. -/
def setKey : List (String × JVal) → String → JVal → List (String × JVal)
  | [], k, v => [(k, v)]
  | (k1, v1) :: rest, k, v =>
      if k1 == k then (k, v) :: removeKey rest k
      else (k1, v1) :: setKey rest k v

/-- Emit a field only when the value is defined; an undefined value is
dropped by JSON serialization before the request leaves the process. -/
def optEntry (k : String) : Option JVal → List (String × JVal)
  | some v => [(k, v)]
  | none => []

/-- Property access on a JSON value; non-objects yield undefined. -/
def jfield : JVal → String → Option JVal
  | .obj fs, k => getKey fs k
  | _, _ => none

/-- The response.data-or-empty-array idiom used by every list handler. -/
def dataOrEmpty (v : JVal) : JVal :=
  match jfield v "data" with
  | some d => if jtruthy d then d else .arr []
  | none => .arr []

mutual
/-- JavaScript String() coercion, restricted to the value shapes the
adapter actually produces. -/
def jsString : JVal → String
  | .null => "null"
  | .bool b => cond b "true" "false"
  | .num n => toString n
  | .str s => s
  | .arr xs => jsStringList xs
  | .obj _ => "[object Object]"

/-- Array-to-string join with comma, where null elements print empty. -/
def jsStringList : List JVal → String
  | [] => ""
  | [.null] => ""
  | [x] => jsString x
  | .null :: xs => "," ++ jsStringList xs
  | x :: xs => jsString x ++ "," ++ jsStringList xs
end

/-- Truthiness of an optional string (absent and empty are falsy). -/
def truthyStr : Option String → Bool
  | some s => s != ""
  | none => false

/-- The logical-or default idiom a-or-b on strings: falsy left operands
(absent or empty) fall through to the default. -/
def orDefaultStr (o : Option String) (d : String) : String :=
  match o with
  | some s => if s == "" then d else s
  | none => d

/-- The logical-or default idiom on JSON values. -/
def orDefaultJ (o : Option JVal) (d : JVal) : JVal :=
  match o with
  | some v => if jtruthy v then v else d
  | none => d

/-- The value-or-null idiom. -/
def orNullJ (o : Option JVal) : JVal := orDefaultJ o .null

/-- Characters of the last slash-separated segment, accumulated in
reverse. -/
def lastSegmentAux : List Char → List Char → List Char
  | [], acc => acc.reverse
  | c :: rest, acc =>
      if c = '/' then lastSegmentAux rest []
      else lastSegmentAux rest (c :: acc)

/-- Last path segment of a URI, as computed by uri.split on the slash
followed by pop (an empty string when the URI ends in a slash). -/
def lastSegment (uri : String) : String :=
  String.mk (lastSegmentAux uri.data [])

/-- Single-quote character, used when reproducing human-facing messages. -/
def sq : String := String.singleton (Char.ofNat 39)

/-- Static configuration relevant to the dispatch layer: the externally
configured default project identifier (validated nonempty at startup by
the config module, but the embedding does not assume that). -/
structure Config where
  defaultProjectId : String
deriving Repr, DecidableEq

/-- HTTP verb of an outbound backend request. -/
inductive HttpVerb where
  | get
  | post
  | put
  | del
deriving Repr, DecidableEq

/-- One outbound request of the Backend Client: verb, path, query
parameters and JSON body, both after serialization (undefined-valued
keys already dropped). -/
structure ApiCall where
  verb : HttpVerb
  path : String
  params : List (String × JVal) := []
  body : List (String × JVal) := []
deriving Repr

/-- The external backend, modelled as a fixed function from requests to
outcomes: ok carries the parsed JSON body the response interceptor
unwraps, error carries the message of the rejection the interceptor
produces for that request. -/
def Backend : Type := ApiCall → Except String JVal

/-- Loosely-typed filter parameters accepted by the list endpoints.
Fields mirror the keys the handlers actually set; a none field models an
absent or undefined key, which axios omits from the query string. -/
structure ListParams where
  project_id : Option JVal := none
  status : Option JVal := none
  priority : Option JVal := none
  assignee_id : Option JVal := none
  phase_id : Option JVal := none
  type : Option JVal := none
  search : Option JVal := none
  limit : Option JVal := none
  page : Option JVal := none
deriving Repr, Inhabited

/-- Query-string serialization of list parameters: defined keys only, in
declaration order. -/
def ListParams.query (p : ListParams) : List (String × JVal) :=
  optEntry "project_id" p.project_id ++
  optEntry "status" p.status ++
  optEntry "priority" p.priority ++
  optEntry "assignee_id" p.assignee_id ++
  optEntry "phase_id" p.phase_id ++
  optEntry "type" p.type ++
  optEntry "search" p.search ++
  optEntry "limit" p.limit ++
  optEntry "page" p.page

namespace Api

/-- Perform one backend request, returning its outcome and the log of
requests issued. -/
def run (be : Backend) (c : ApiCall) : Except String JVal × List ApiCall :=
  (be c, [c])

namespace tasks

/-- Parameters actually sent by api.tasks.list: the caller parameters
spread, with project_id overridden by the or-default idiom. -/
def sentList (cfg : Config) (params : Option ListParams) : ListParams :=
  { params.getD {} with
      project_id := some (orDefaultJ (params.bind (fun p => p.project_id))
        (.str cfg.defaultProjectId)) }

def list (cfg : Config) (be : Backend) (params : Option ListParams) :
    Except String JVal × List ApiCall :=
  run be { verb := .get, path := "/api/tasks", params := (sentList cfg params).query }

def get (be : Backend) (id : String) : Except String JVal × List ApiCall :=
  run be { verb := .get, path := "/api/tasks/" ++ id }

/-- Body actually sent by api.tasks.create: the caller data spread, with
project_id overridden by the or-default idiom. -/
def sentCreate (cfg : Config) (data : List (String × JVal)) : List (String × JVal) :=
  setKey data "project_id" (orDefaultJ (getKey data "project_id") (.str cfg.defaultProjectId))

def create (cfg : Config) (be : Backend) (data : List (String × JVal)) :
    Except String JVal × List ApiCall :=
  run be { verb := .post, path := "/api/tasks", body := sentCreate cfg data }

def update (be : Backend) (id : String) (data : List (String × JVal)) :
    Except String JVal × List ApiCall :=
  run be { verb := .put, path := "/api/tasks/" ++ id, body := data }

def del (be : Backend) (id : String) : Except String JVal × List ApiCall :=
  run be { verb := .del, path := "/api/tasks/" ++ id }

end tasks

namespace documents

/-- Parameters actually sent by api.documents.list, same or-default
override as tasks. -/
def sentList (cfg : Config) (params : Option ListParams) : ListParams :=
  { params.getD {} with
      project_id := some (orDefaultJ (params.bind (fun p => p.project_id))
        (.str cfg.defaultProjectId)) }

def list (cfg : Config) (be : Backend) (params : Option ListParams) :
    Except String JVal × List ApiCall :=
  run be { verb := .get, path := "/api/documents", params := (sentList cfg params).query }

def get (be : Backend) (id : String) : Except String JVal × List ApiCall :=
  run be { verb := .get, path := "/api/documents/" ++ id }

/-- Body actually sent by api.documents.create, same or-default override
as tasks. -/
def sentCreate (cfg : Config) (data : List (String × JVal)) : List (String × JVal) :=
  setKey data "project_id" (orDefaultJ (getKey data "project_id") (.str cfg.defaultProjectId))

def create (cfg : Config) (be : Backend) (data : List (String × JVal)) :
    Except String JVal × List ApiCall :=
  run be { verb := .post, path := "/api/documents", body := sentCreate cfg data }

end documents

namespace projects

def list (be : Backend) (params : Option ListParams) :
    Except String JVal × List ApiCall :=
  run be { verb := .get, path := "/api/projects",
           params := (params.getD {}).query }

def get (be : Backend) (id : String) : Except String JVal × List ApiCall :=
  run be { verb := .get, path := "/api/projects/" ++ id }

end projects

namespace workspaces

def get (be : Backend) (id : String) : Except String JVal × List ApiCall :=
  run be { verb := .get, path := "/api/workspaces/" ++ id }

end workspaces

namespace errors

def list (be : Backend) (params : Option ListParams) :
    Except String JVal × List ApiCall :=
  run be { verb := .get, path := "/api/errors", params := (params.getD {}).query }

def get (be : Backend) (id : String) : Except String JVal × List ApiCall :=
  run be { verb := .get, path := "/api/errors/" ++ id }

def track (be : Backend) (data : List (String × JVal)) :
    Except String JVal × List ApiCall :=
  run be { verb := .post, path := "/api/errors",
           body := setKey data "status" (.str "open") }

def updateStatus (be : Backend) (id : String) (status : JVal) :
    Except String JVal × List ApiCall :=
  run be { verb := .put, path := "/api/errors/" ++ id ++ "/status",
           body := [("status", status)] }

end errors

namespace phases

/-- The endpoints module exports no phases group, so every api.phases
access dereferences undefined and throws a TypeError before any HTTP
request can be issued. -/
def typeErrorMsg (member : String) : String :=
  "Cannot read properties of undefined (reading " ++ sq ++ member ++ sq ++ ")"

def list (_params : ListParams) : Except String JVal × List ApiCall :=
  (.error (typeErrorMsg "list"), [])

def create (_data : List (String × JVal)) : Except String JVal × List ApiCall :=
  (.error (typeErrorMsg "create"), [])

def update (_id : String) (_data : List (String × JVal)) :
    Except String JVal × List ApiCall :=
  (.error (typeErrorMsg "update"), [])

end phases

end Api

/-! Resource handlers. Every try/catch of the source appears as a match
on the Except outcome; a method that swallows failures has a plain
return type, a method that rethrows returns Except. Each method also
returns the log of backend requests it issued. -/

namespace TaskResource

/-- Parameters after TaskResource.list applies its defaults: project_id
is always forced to the configured default, and a falsy status defaults
to in_progress (a truthy status, including the literal all, is kept). -/
def effectiveParams (cfg : Config) (params : Option ListParams) : ListParams :=
  match params with
  | none => { project_id := some (.str cfg.defaultProjectId), status := some (.str "in_progress") }
  | some p =>
      { p with
          project_id := some (.str cfg.defaultProjectId),
          status := if jtruthyOpt p.status then p.status else some (.str "in_progress") }

def list (cfg : Config) (be : Backend) (params : Option ListParams) :
    JVal × List ApiCall :=
  match Api.tasks.list cfg be (some (effectiveParams cfg params)) with
  | (.ok v, cs) => (dataOrEmpty v, cs)
  | (.error _, cs) => (.arr [], cs)

def read (be : Backend) (uri : String) : Option JVal × List ApiCall :=
  let id := lastSegment uri
  if id == "" then (none, [])
  else
    match Api.tasks.get be id with
    | (.ok v, cs) => (some v, cs)
    | (.error _, cs) => (none, cs)

/-- Create input as a field record; none models an absent key. -/
structure CreateData where
  title : Option JVal := none
  description : Option JVal := none
  status : Option JVal := none
  priority : Option JVal := none
  project_id : Option JVal := none
  assignee_id : Option JVal := none
  created_by : Option JVal := none
  due_date : Option JVal := none
  completed_at : Option JVal := none
deriving Repr

/-- Whitelisted body TaskResource.create sends; fields with undefined
values (assignee_id, created_by, due_date when absent) are dropped at
serialization. -/
def createBody (data : CreateData) : List (String × JVal) :=
  optEntry "title" data.title ++
  [("description", orNullJ data.description),
   ("status", orDefaultJ data.status (.str "todo")),
   ("priority", orDefaultJ data.priority (.str "medium"))] ++
  optEntry "project_id" data.project_id ++
  optEntry "assignee_id" data.assignee_id ++
  optEntry "created_by" data.created_by ++
  optEntry "due_date" data.due_date ++
  [("completed_at", orNullJ data.completed_at)]

def create (cfg : Config) (be : Backend) (data : CreateData) :
    Except String JVal × List ApiCall :=
  if !jtruthyOpt data.title then (.error "Task title is required", [])
  else if !jtruthyOpt data.project_id then (.error "Project ID is required", [])
  else
    match Api.tasks.create cfg be (createBody data) with
    | (.ok v, cs) => (.ok v, cs)
    | (.error e, cs) => (.error e, cs)

/-- Update input as a field record; none models an absent key. -/
structure UpdateData where
  title : Option JVal := none
  description : Option JVal := none
  status : Option JVal := none
  priority : Option JVal := none
  due_date : Option JVal := none
  assignee_id : Option JVal := none
  completed_at : Option JVal := none
deriving Repr

/-- The allow-listed update body: exactly these seven fields, any other
caller field silently dropped; undefined values vanish at
serialization. -/
def updateBody (data : UpdateData) : List (String × JVal) :=
  optEntry "title" data.title ++
  optEntry "description" data.description ++
  optEntry "status" data.status ++
  optEntry "priority" data.priority ++
  optEntry "due_date" data.due_date ++
  optEntry "assignee_id" data.assignee_id ++
  optEntry "completed_at" data.completed_at

def update (be : Backend) (uri : String) (data : UpdateData) :
    Option JVal × List ApiCall :=
  let id := lastSegment uri
  if id == "" then (none, [])
  else
    match Api.tasks.update be id (updateBody data) with
    | (.ok v, cs) => (some v, cs)
    | (.error _, cs) => (none, cs)

def del (be : Backend) (uri : String) : Except String Unit × List ApiCall :=
  let id := lastSegment uri
  if id == "" then (.error ("Invalid task URI: " ++ uri), [])
  else
    match Api.tasks.del be id with
    | (.ok _, cs) => (.ok (), cs)
    | (.error e, cs) => (.error e, cs)

end TaskResource

namespace ProjectResource

/-- The read method of the read-only project handler. A URI equal to or
ending in the default literal is first resolved to the configured
default project id and retried; the fuel argument bounds that recursion,
which in the source terminates after one substitution whenever the
configured id is not itself the literal default. -/
def readGo (cfg : Config) (be : Backend) : Nat → String → Option JVal × List ApiCall
  | 0, _ => (none, [])
  | fuel + 1, uri =>
    if uri == "default" || uri.endsWith "/default" then
      if cfg.defaultProjectId == "" then (none, [])
      else readGo cfg be fuel ("wynd://projects/" ++ cfg.defaultProjectId)
    else
      let id := lastSegment uri
      if id == "" then (none, [])
      else
        match Api.projects.get be id with
        | (.ok v, cs) => (some v, cs)
        | (.error _, cs) => (none, cs)

def read (cfg : Config) (be : Backend) (uri : String) : Option JVal × List ApiCall :=
  readGo cfg be 2 uri

def list (be : Backend) (params : Option ListParams) : JVal × List ApiCall :=
  match Api.projects.list be params with
  | (.ok v, cs) => (dataOrEmpty v, cs)
  | (.error _, cs) => (.arr [], cs)

/-- Unconditional refusal: projects are read-only through this adapter. -/
def create (_data : List (String × JVal)) : Except String JVal × List ApiCall :=
  (.error "Project creation is not supported - projects are read-only", [])

/-- Unconditional refusal: projects are read-only through this adapter. -/
def update (_uri : String) (_data : List (String × JVal)) :
    Except String JVal × List ApiCall :=
  (.error "Project updates are not supported - projects are read-only", [])

/-- Unconditional refusal: projects are read-only through this adapter. -/
def del (_uri : String) : Except String Unit × List ApiCall :=
  (.error "Project deletion is not supported - projects are read-only", [])

end ProjectResource

namespace WorkspaceResource

def read (be : Backend) (uri : String) : Option JVal × List ApiCall :=
  let id := lastSegment uri
  if id == "" then (none, [])
  else
    match Api.workspaces.get be id with
    | (.ok v, cs) => (some v, cs)
    | (.error _, cs) => (none, cs)

end WorkspaceResource

namespace DocumentResource

def read (be : Backend) (uri : String) : Option JVal × List ApiCall :=
  let id := lastSegment uri
  if id == "" then (none, [])
  else
    match Api.documents.get be id with
    | (.ok v, cs) => (some v, cs)
    | (.error _, cs) => (none, cs)

end DocumentResource

namespace ErrorResource

def read (be : Backend) (uri : String) : Option JVal × List ApiCall :=
  let id := lastSegment uri
  if id == "" then (none, [])
  else
    match Api.errors.get be id with
    | (.ok v, cs) => (some v, cs)
    | (.error _, cs) => (none, cs)

/-- Update input as a field record; none models an absent key. -/
structure UpdateData where
  status : Option JVal := none
  error_type : Option JVal := none
  error_message : Option JVal := none
  stack_trace : Option JVal := none
  metadata : Option JVal := none
  project_id : Option JVal := none
deriving Repr

/-- Fields of a value under object spread; spreading a non-object
contributes none of the fields the adapter cares about. -/
def jfields : JVal → List (String × JVal)
  | .obj fs => fs
  | _ => []

/-- Override a field with a possibly-undefined value: an undefined value
still clobbers the existing field under spread, and the key then
disappears at JSON serialization. -/
def setOptKey (l : List (String × JVal)) (k : String) : Option JVal → List (String × JVal)
  | some v => setKey l k v
  | none => removeKey l k

/-- The locally merged object ErrorResource.update returns on its
non-status path: the existing record spread under the allow-listed
updates plus a fresh updated_at stamp. Callers guarantee error_type and
error_message are present. -/
def mergedUpdate (existing : JVal) (data : UpdateData) (now : String) :
    List (String × JVal) :=
  let m1 := setKey (jfields existing) "error_type" (.str (jsString (data.error_type.getD .null)))
  let m2 := setKey m1 "error_message" (.str (jsString (data.error_message.getD .null)))
  let m3 := setOptKey m2 "stack_trace" data.stack_trace
  let m4 := setOptKey m3 "metadata" data.metadata
  let m5 := setOptKey m4 "project_id" data.project_id
  setKey m5 "updated_at" (.str now)

/-- ErrorResource.update: a truthy status routes to the dedicated
status endpoint; otherwise the existing record is fetched, the required
fields are validated, and a merged object is returned without any
persisting backend request. The now argument is the ISO timestamp of
the wall clock at the merge. -/
def update (be : Backend) (now : String) (uri : String) (data : UpdateData) :
    Except String JVal × List ApiCall :=
  let id := lastSegment uri
  if id == "" then (.error ("Invalid error URI: " ++ uri), [])
  else if jtruthyOpt data.status then
    match Api.errors.updateStatus be id (data.status.getD .null) with
    | (.ok v, cs) => (.ok v, cs)
    | (.error e, cs) => (.error e, cs)
  else
    match read be uri with
    | (none, cs) => (.error ("Error with URI " ++ uri ++ " not found"), cs)
    | (some existing, cs) =>
      if !jtruthy existing then
        (.error ("Error with URI " ++ uri ++ " not found"), cs)
      else if !jtruthyOpt data.error_type then
        (.error "Error type is required for update", cs)
      else if !jtruthyOpt data.error_message then
        (.error "Error message is required for update", cs)
      else
        (.ok (.obj (mergedUpdate existing data now)), cs)

end ErrorResource

/-! Tool handlers. Tool calls are total: every failure is caught and
reported as a success := false envelope. Each handler also returns the
log of backend requests it issued. -/

/-- Strict equality test against the string literal all. -/
def isStrAll : Option JVal → Bool
  | some (.str s) => s == "all"
  | _ => false

/-- Template-literal interpolation of an object field; a missing field
prints as undefined. -/
def jfieldTS (v : JVal) (k : String) : String :=
  match jfield v k with
  | some x => jsString x
  | none => "undefined"

/-- Length as read by a .length access: defined for arrays only among
the shapes that occur here. -/
def jlen : JVal → Option Nat
  | .arr xs => some xs.length
  | .str s => some s.length
  | _ => none

/-- Uniform result envelope of a tool call: the success flag, the error
message when failed, the human message when present, and the remaining
payload fields of the returned object. -/
structure ToolResult where
  success : Bool
  error : Option String := none
  message : Option String := none
  fields : List (String × JVal) := []
deriving Repr

/-- Registered tool names with their schema-required fields, in
registration order. -/
def toolsRequired : List (String × List String) :=
  [("list_tasks", []),
   ("create_task", ["title"]),
   ("update_task", ["task_id"]),
   ("list_phases", []),
   ("create_phase", ["title"]),
   ("update_phase", ["phase_id"]),
   ("get_project", []),
   ("list_documents", []),
   ("create_document", ["title"]),
   ("get_context", [])]

namespace listTasks

def name : String := "list_tasks"

def properties : List String :=
  ["status", "priority", "assignee_id", "limit", "phase_id"]

def required : List String := []

/-- Caller argument bag; none models an absent key. -/
structure Args where
  status : Option JVal := none
  priority : Option JVal := none
  assignee_id : Option JVal := none
  limit : Option JVal := none
  phase_id : Option JVal := none
deriving Repr

/-- The params object the handler assembles: default project id always,
limit or-defaulted to 50, and the status rules (truthy non-all status
kept, falsy status defaulted to in_progress, the all sentinel
suppressed). -/
def params (cfg : Config) (args : Args) : ListParams :=
  let base : ListParams :=
    { project_id := some (.str cfg.defaultProjectId),
      priority := args.priority,
      assignee_id := args.assignee_id,
      phase_id := args.phase_id,
      limit := some (orDefaultJ args.limit (.num 50)) }
  if jtruthyOpt args.status && !isStrAll args.status then
    { base with status := args.status }
  else if !jtruthyOpt args.status then
    { base with status := some (.str "in_progress") }
  else base

/-- The status value reported back in filter_applied and the message. -/
def appliedStatus (cfg : Config) (args : Args) : JVal :=
  if isStrAll args.status then .str "all"
  else if jtruthyOpt (params cfg args).status then (params cfg args).status.getD .null
  else .str ("in_progress (default)")

def successMessage (cfg : Config) (args : Args) (count : String) : String :=
  "Found " ++ count ++ " tasks" ++
    (if isStrAll args.status then ""
     else " with status " ++ sq ++
       jsString (orDefaultJ (params cfg args).status (.str "in_progress")) ++ sq)

def handler (cfg : Config) (be : Backend) (args : Args) :
    ToolResult × List ApiCall :=
  match Api.tasks.list cfg be (some (params cfg args)) with
  | (.ok v, cs) =>
    let tasks := dataOrEmpty v
    let countStr := match jlen tasks with
      | some n => toString n
      | none => "undefined"
    ({ success := true,
       message := some (successMessage cfg args countStr),
       fields :=
         [("tasks", tasks)] ++
         optEntry "count" ((jlen tasks).map (fun n => JVal.num n)) ++
         [("filter_applied", .obj
           [("status", appliedStatus cfg args),
            ("priority", orDefaultJ (params cfg args).priority (.str "all")),
            ("phase_id", orDefaultJ (params cfg args).phase_id (.str "all")),
            ("project_id", .str cfg.defaultProjectId)])] }, cs)
  | (.error e, cs) =>
    ({ success := false, error := some e, fields := [("tasks", .arr [])] }, cs)

end listTasks

namespace createTask

def name : String := "create_task"

def properties : List String :=
  ["title", "description", "status", "priority", "assignee_id", "due_date", "phase_id"]

def required : List String := ["title"]

/-- Caller argument bag. The args value is untyped at the boundary, so a
caller may include keys outside the schema; project_id models such an
extra key, which the handler never reads. -/
structure Args where
  title : Option JVal := none
  description : Option JVal := none
  status : Option JVal := none
  priority : Option JVal := none
  assignee_id : Option JVal := none
  due_date : Option JVal := none
  phase_id : Option JVal := none
  project_id : Option JVal := none
deriving Repr

/-- The payload the handler assembles: project scope and authorship are
fixed by the server, never taken from the caller. -/
def taskData (cfg : Config) (args : Args) : List (String × JVal) :=
  optEntry "title" args.title ++
  [("description", orNullJ args.description),
   ("status", orDefaultJ args.status (.str "todo")),
   ("priority", orDefaultJ args.priority (.str "medium")),
   ("project_id", .str cfg.defaultProjectId),
   ("phase_id", orNullJ args.phase_id),
   ("assignee_id", orNullJ args.assignee_id),
   ("due_date", orNullJ args.due_date),
   ("completed_at", JVal.null),
   ("created_by", .str "mcp-client")]

def successMessage (task : JVal) : String :=
  "Task " ++ sq ++ jfieldTS task "title" ++ sq ++
    " created successfully with ID: " ++ jfieldTS task "id"

def handler (cfg : Config) (be : Backend) (args : Args) :
    ToolResult × List ApiCall :=
  if !jtruthyOpt args.title then
    ({ success := false, error := some "Task title is required" }, [])
  else
    match Api.tasks.create cfg be (taskData cfg args) with
    | (.ok task, cs) =>
      ({ success := true, message := some (successMessage task),
         fields := [("task", task)] }, cs)
    | (.error e, cs) => ({ success := false, error := some e }, cs)

end createTask

namespace updateTask

def name : String := "update_task"

def properties : List String :=
  ["task_id", "title", "description", "status", "priority", "assignee_id",
   "due_date", "phase_id"]

def required : List String := ["task_id"]

/-- Caller argument bag; none models an absent key. -/
structure Args where
  task_id : Option JVal := none
  title : Option JVal := none
  description : Option JVal := none
  status : Option JVal := none
  priority : Option JVal := none
  assignee_id : Option JVal := none
  due_date : Option JVal := none
  phase_id : Option JVal := none
deriving Repr

/-- Only fields the caller defined are forwarded. -/
def updateData (args : Args) : List (String × JVal) :=
  optEntry "title" args.title ++
  optEntry "description" args.description ++
  optEntry "status" args.status ++
  optEntry "priority" args.priority ++
  optEntry "assignee_id" args.assignee_id ++
  optEntry "due_date" args.due_date ++
  optEntry "phase_id" args.phase_id

def handler (be : Backend) (args : Args) : ToolResult × List ApiCall :=
  if !jtruthyOpt args.task_id then
    ({ success := false, error := some "Task ID is required" }, [])
  else
    match Api.tasks.update be (jsString (args.task_id.getD .null)) (updateData args) with
    | (.ok task, cs) =>
      ({ success := true,
         message := some ("Task " ++ sq ++ jfieldTS task "title" ++ sq ++ " updated successfully"),
         fields := [("task", task)] }, cs)
    | (.error e, cs) => ({ success := false, error := some e }, cs)

end updateTask

namespace createDocument

def name : String := "create_document"

def properties : List String := ["title", "content", "type", "description"]

def required : List String := ["title"]

/-- Caller argument bag; none models an absent key. -/
structure Args where
  title : Option JVal := none
  content : Option JVal := none
  type : Option JVal := none
  description : Option JVal := none
deriving Repr

def documentData (cfg : Config) (args : Args) : List (String × JVal) :=
  optEntry "title" args.title ++
  [("content", orDefaultJ args.content (.str "")),
   ("type", orDefaultJ args.type (.str "other")),
   ("description", orNullJ args.description),
   ("project_id", .str cfg.defaultProjectId)]

def handler (cfg : Config) (be : Backend) (args : Args) :
    ToolResult × List ApiCall :=
  if !jtruthyOpt args.title then
    ({ success := false, error := some "Document title is required" }, [])
  else
    match Api.documents.create cfg be (documentData cfg args) with
    | (.ok doc, cs) =>
      ({ success := true,
         message := some ("Document " ++ sq ++ jfieldTS doc "title" ++ sq ++
           " created successfully with ID: " ++ jfieldTS doc "id"),
         fields := [("document", doc)] }, cs)
    | (.error e, cs) => ({ success := false, error := some e }, cs)

end createDocument

namespace createPhase

def name : String := "create_phase"

def properties : List String :=
  ["title", "description", "status", "order", "start_date", "end_date", "color"]

def required : List String := ["title"]

/-- Caller argument bag; none models an absent key. -/
structure Args where
  title : Option JVal := none
  description : Option JVal := none
  status : Option JVal := none
  order : Option JVal := none
  start_date : Option JVal := none
  end_date : Option JVal := none
  color : Option JVal := none
deriving Repr

def phaseData (cfg : Config) (args : Args) : List (String × JVal) :=
  optEntry "title" args.title ++
  [("description", orNullJ args.description),
   ("status", orDefaultJ args.status (.str "planning")),
   ("order", orDefaultJ args.order (.num 1)),
   ("project_id", .str cfg.defaultProjectId),
   ("start_date", orNullJ args.start_date),
   ("end_date", orNullJ args.end_date),
   ("color", orNullJ args.color)]

def handler (cfg : Config) (args : Args) : ToolResult × List ApiCall :=
  if !jtruthyOpt args.title then
    ({ success := false, error := some "Phase title is required" }, [])
  else
    match Api.phases.create (phaseData cfg args) with
    | (.ok phase, cs) =>
      ({ success := true,
         message := some ("Phase " ++ sq ++ jfieldTS phase "title" ++ sq ++
           " created successfully with ID: " ++ jfieldTS phase "id"),
         fields := [("phase", phase)] }, cs)
    | (.error e, cs) => ({ success := false, error := some e }, cs)

end createPhase

namespace updatePhase

def name : String := "update_phase"

def properties : List String :=
  ["phase_id", "title", "description", "status", "order", "start_date",
   "end_date", "color"]

def required : List String := ["phase_id"]

/-- Caller argument bag; none models an absent key. -/
structure Args where
  phase_id : Option JVal := none
  title : Option JVal := none
  description : Option JVal := none
  status : Option JVal := none
  order : Option JVal := none
  start_date : Option JVal := none
  end_date : Option JVal := none
  color : Option JVal := none
deriving Repr

def updateData (args : Args) : List (String × JVal) :=
  optEntry "title" args.title ++
  optEntry "description" args.description ++
  optEntry "status" args.status ++
  optEntry "order" args.order ++
  optEntry "start_date" args.start_date ++
  optEntry "end_date" args.end_date ++
  optEntry "color" args.color

def handler (args : Args) : ToolResult × List ApiCall :=
  if !jtruthyOpt args.phase_id then
    ({ success := false, error := some "Phase ID is required" }, [])
  else
    match Api.phases.update (jsString (args.phase_id.getD .null)) (updateData args) with
    | (.ok phase, cs) =>
      ({ success := true,
         message := some ("Phase " ++ sq ++ jfieldTS phase "title" ++ sq ++ " updated successfully"),
         fields := [("phase", phase)] }, cs)
    | (.error e, cs) => ({ success := false, error := some e }, cs)

end updatePhase

/-! Backend Client response interceptor. An axios rejection carries
either a received non-2xx response, a request that got no response, or
a request-construction failure. -/

/-- The three axios failure shapes the interceptor distinguishes. The
axMessage is the generic message axios itself attached to the error. -/
inductive AxiosFailure where
  | response (status : Nat) (body : JVal) (axMessage : String)
  | request (axMessage : String)
  | setup (axMessage : String)
deriving Repr

/-- The rejection the interceptor produces: a typed ApiError carrying
the backend status and raw body, or a plain error. -/
inductive Rejection where
  | apiError (message : String) (status : Nat) (data : JVal)
  | plain (message : String)
deriving Repr

/-- True when the body is a non-null object with a message own-property
(the typeof-object, non-null, in-operator test of the interceptor). -/
def hasMessageField : JVal → Bool
  | .obj fs => fs.any (fun kv => kv.1 == "message")
  | _ => false

/-- The response interceptor error path of createApiClient. -/
def handleAxiosFailure : AxiosFailure → Rejection
  | .response status body axMessage =>
    let msg :=
      if hasMessageField body then
        jsString ((jfield body "message").getD .null)
      else axMessage
    .apiError msg status body
  | .request _ => .plain "No response received from server"
  | .setup axMessage => .plain axMessage

/-- The message carried by a rejection. -/
def Rejection.messageOf : Rejection → String
  | .apiError m _ _ => m
  | .plain m => m

/-! HTTP transport. -/

/-- An incoming HTTP request as the transport sees it: the verb, the
URL, and the buffered body chunks. -/
structure HttpRequest where
  method : String
  url : String
  bodyChunks : List String := []
deriving Repr

/-- The response the transport writes back. A none body models an end
call with no payload; streamed records that the chunked streaming relay
path was taken for the remainder of the body. -/
structure HttpResponse where
  status : Nat
  headers : List (String × String)
  body : Option JVal := none
  streamed : Bool := false
deriving Repr

/-- The three CORS headers set on every response before any branch. -/
def corsHeaders : List (String × String) :=
  [("Access-Control-Allow-Origin", "*"),
   ("Access-Control-Allow-Methods", "GET, POST, OPTIONS"),
   ("Access-Control-Allow-Headers", "Content-Type")]

/-- The per-request handler of HttpServerTransport. The parse argument
models JSON.parse applied to the concatenated body; messageHandler is
the registered dispatch callback (none when never registered). The
returned flag records whether the message handler was invoked. -/
def requestHandler (messageHandler : Option (JVal → Except String JVal))
    (parse : String → Except String JVal) (req : HttpRequest) :
    HttpResponse × Bool :=
  if req.method == "OPTIONS" then
    ({ status := 204, headers := corsHeaders }, false)
  else if req.method != "POST" then
    ({ status := 405,
       headers := corsHeaders ++ [("Content-Type", "application/json")],
       body := some (.obj [("error", .str "Method Not Allowed")]) }, false)
  else
    match parse (String.join req.bodyChunks) with
    | .error e =>
      ({ status := 500,
         headers := corsHeaders ++ [("Content-Type", "application/json")],
         body := some (.obj [("error", .str "Internal Server Error"),
                             ("details", .str e)]) }, false)
    | .ok msg =>
      match messageHandler with
      | none =>
        ({ status := 500,
           headers := corsHeaders ++ [("Content-Type", "application/json")],
           body := some (.obj [("error", .str "No message handler registered")]) }, false)
      | some h =>
        match h msg with
        | .error e =>
          ({ status := 500,
             headers := corsHeaders ++ [("Content-Type", "application/json")],
             body := some (.obj [("error", .str "Internal Server Error"),
                                 ("details", .str e)]) }, true)
        | .ok response =>
          if jtruthy ((jfield response "stream").getD .null) then
            ({ status := 200,
               headers := corsHeaders ++ [("Content-Type", "application/json"),
                                          ("Transfer-Encoding", "chunked")],
               body := some response, streamed := true }, true)
          else
            ({ status := 200,
               headers := corsHeaders ++ [("Content-Type", "application/json")],
               body := some response }, true)

/-- The fixed forced-shutdown grace period in milliseconds. -/
def gracePeriodMs : Nat := 5000

/-- Observable outcome of a stop call: whether the returned promise
settled, how many milliseconds after the call it settled, and whether
the forced closeAllConnections path ran. -/
structure StopOutcome where
  resolved : Bool
  resolvesAt : Nat
  forcedClose : Bool
deriving Repr, DecidableEq

/-- The stop method of HttpServerTransport over an abstract connection
behavior: gracefulCloseAt is the instant at which the graceful server
close would complete once every live connection has ended, none when
some connection never closes voluntarily. A stopped transport returns
immediately; a graceful close completing inside the grace period
settles then; otherwise the 5-second timer fires, all sockets are
force-closed, and the promise settles at the grace period. -/
def stop (isRunning : Bool) (gracefulCloseAt : Option Nat) : StopOutcome :=
  if !isRunning then { resolved := true, resolvesAt := 0, forcedClose := false }
  else
    match gracefulCloseAt with
    | some t =>
      if t < gracePeriodMs then { resolved := true, resolvesAt := t, forcedClose := false }
      else { resolved := true, resolvesAt := gracePeriodMs, forcedClose := true }
    | none => { resolved := true, resolvesAt := gracePeriodMs, forcedClose := true }

/-- Issue the same read twice against the same backend, as the
idempotence property describes. -/
def readTwice {α : Type} (f : String → α) (uri : String) : α × α :=
  (f uri, f uri)

/-! Concrete backends used to instantiate hypotheses on small inputs. -/

/-- A backend that answers every request with an empty data page. -/
def beOkEmptyData : Backend :=
  fun _ => .ok (.obj [("data", .arr [])])

/-- A backend for which every request fails. -/
def beFail : Backend :=
  fun _ => .error "boom"

/-- A stored error record used to exercise the errors update path. -/
def existingErr : JVal :=
  .obj [("id", .str "e1"), ("error_type", .str "old-type"),
        ("error_message", .str "old-message"), ("status", .str "open")]

/-- A backend that returns the stored error record for every request. -/
def beExistingErr : Backend :=
  fun _ => .ok existingErr

/-! Association-list lemmas. -/

/-- Looking up the key just set yields the value set. -/
theorem getKey_setKey (l : List (String × JVal)) (k : String) (v : JVal) :
    getKey (setKey l k v) k = some v := by
  induction l with
  | nil => simp [setKey, getKey, List.find?]
  | cons hd tl ih =>
    obtain ⟨k1, v1⟩ := hd
    by_cases h : k1 = k
    · subst h
      simp [setKey, getKey, List.find?]
    · have hb : (k1 == k) = false := by simp [h]
      simpa [setKey, hb, getKey, List.find?] using ih

/-- A successful lookup exhibits the key among the fields. -/
theorem any_key_of_getKey (fs : List (String × JVal)) (k : String) (v : JVal)
    (h : getKey fs k = some v) : fs.any (fun kv => kv.1 == k) = true := by
  unfold getKey at h
  obtain ⟨kv, hfind⟩ : ∃ kv, fs.find? (fun kv => kv.1 == k) = some kv := by
    cases hf : fs.find? (fun kv => kv.1 == k) with
    | none => rw [hf] at h; simp at h
    | some kv => exact ⟨kv, rfl⟩
  have hmem := List.mem_of_find?_eq_some hfind
  have hpred := List.find?_some hfind
  exact List.any_eq_true.mpr ⟨kv, hmem, hpred⟩

/-- C4: for every input, create, update and delete on the projects
resource handler fail with the fixed not-supported message and issue no
backend request. -/
theorem claim4_projects_readonly (data data2 : List (String × JVal)) (uri uri2 : String) :
    ProjectResource.create data =
      (.error "Project creation is not supported - projects are read-only", []) ∧
    ProjectResource.update uri data2 =
      (.error "Project updates are not supported - projects are read-only", []) ∧
    ProjectResource.del uri2 =
      (.error "Project deletion is not supported - projects are read-only", []) :=
  ⟨rfl, rfl, rfl⟩

/-- C7: stop always settles, settles no later than the 5-second grace
period, and when a connection never closes voluntarily on a running
transport, the forced socket closure runs and stop completes anyway. -/
theorem claim7_stop_always_resolves (r : Bool) (g : Option Nat) :
    (stop r g).resolved = true ∧
    (stop r g).resolvesAt ≤ gracePeriodMs ∧
    (g = none → r = true → (stop r g).forcedClose = true) := by
  unfold stop gracePeriodMs
  cases r with
  | false => cases g <;> simp
  | true =>
    cases g with
    | none => simp
    | some t =>
      by_cases h : t < 5000 <;> simp [h] <;> omega

/-- Witness for C7 at a hung connection on a running transport. -/
theorem claim7_witness :
    (stop true none).resolved = true ∧
    (stop true none).resolvesAt ≤ gracePeriodMs ∧
    (stop true none).forcedClose = true :=
  ⟨(claim7_stop_always_resolves true none).1,
   (claim7_stop_always_resolves true none).2.1,
   (claim7_stop_always_resolves true none).2.2 rfl rfl⟩

/-- C9: reading the same URI twice against an unchanged backend returns
structurally identical results, for every resource handler that exposes
read. -/
theorem claim9_read_idempotent (cfg : Config) (be : Backend) (uri : String) :
    (readTwice (TaskResource.read be) uri).1 = (readTwice (TaskResource.read be) uri).2 ∧
    (readTwice (ProjectResource.read cfg be) uri).1 =
      (readTwice (ProjectResource.read cfg be) uri).2 ∧
    (readTwice (ErrorResource.read be) uri).1 = (readTwice (ErrorResource.read be) uri).2 ∧
    (readTwice (WorkspaceResource.read be) uri).1 =
      (readTwice (WorkspaceResource.read be) uri).2 ∧
    (readTwice (DocumentResource.read be) uri).1 =
      (readTwice (DocumentResource.read be) uri).2 :=
  ⟨rfl, rfl, rfl, rfl, rfl⟩

/-! Call-log lemmas: the list operations issue exactly one backend
request, whose query is the serialized effective parameters. -/

/-- The single request the list_tasks tool issues. -/
def listTasksCall (cfg : Config) (args : listTasks.Args) : ApiCall :=
  { verb := .get, path := "/api/tasks",
    params := (Api.tasks.sentList cfg (some (listTasks.params cfg args))).query }

theorem listTasks_call_log (cfg : Config) (be : Backend) (args : listTasks.Args) :
    (listTasks.handler cfg be args).2 = [listTasksCall cfg args] := by
  unfold listTasks.handler Api.tasks.list Api.run listTasksCall
  cases be { verb := .get, path := "/api/tasks",
             params := (Api.tasks.sentList cfg (some (listTasks.params cfg args))).query } <;>
    rfl

/-- The single request TaskResource.list issues. -/
def taskListCall (cfg : Config) (p : Option ListParams) : ApiCall :=
  { verb := .get, path := "/api/tasks",
    params := (Api.tasks.sentList cfg (some (TaskResource.effectiveParams cfg p))).query }

theorem taskResource_list_call_log (cfg : Config) (be : Backend) (p : Option ListParams) :
    (TaskResource.list cfg be p).2 = [taskListCall cfg p] := by
  unfold TaskResource.list Api.tasks.list Api.run taskListCall
  cases be { verb := .get, path := "/api/tasks",
             params := (Api.tasks.sentList cfg (some (TaskResource.effectiveParams cfg p))).query } <;>
    rfl

/-- C1 (amended): with no status argument both the list_tasks tool and
TaskResource.list send status in_progress; with the all sentinel the
tool omits the status key from the outbound query, but TaskResource.list
forwards status all literally instead of suppressing it. -/
theorem claim1_status_defaults (cfg : Config) (be : Backend) :
    (∀ args : listTasks.Args, args.status = none →
      ((listTasks.handler cfg be args).2.map (fun c => getKey c.params "status")) =
        [some (.str "in_progress")]) ∧
    (∀ args : listTasks.Args, args.status = some (.str "all") →
      ((listTasks.handler cfg be args).2.map (fun c => getKey c.params "status")) = [none]) ∧
    (∀ p : Option ListParams, p.bind (fun q => q.status) = none →
      ((TaskResource.list cfg be p).2.map (fun c => getKey c.params "status")) =
        [some (.str "in_progress")]) ∧
    (∀ q : ListParams, q.status = some (.str "all") →
      ((TaskResource.list cfg be (some q)).2.map (fun c => getKey c.params "status")) =
        [some (.str "all")]) := by
  refine ⟨?_, ?_, ?_, ?_⟩
  · intro args h
    rw [listTasks_call_log]
    simp [listTasksCall, listTasks.params, h, jtruthyOpt, isStrAll, Api.tasks.sentList,
      ListParams.query, optEntry, getKey, List.find?]
  · intro args h
    rw [listTasks_call_log]
    cases hp : args.priority <;> cases ha : args.assignee_id <;> cases hph : args.phase_id <;>
      simp [listTasksCall, listTasks.params, h, hp, ha, hph, jtruthyOpt, jtruthy, isStrAll,
        Api.tasks.sentList, ListParams.query, optEntry, getKey, List.find?]
  · intro p h
    rw [taskResource_list_call_log]
    cases p with
    | none =>
      simp [taskListCall, TaskResource.effectiveParams, Api.tasks.sentList,
        ListParams.query, optEntry, getKey, List.find?, orDefaultJ]
    | some q =>
      simp at h
      simp [taskListCall, TaskResource.effectiveParams, h, jtruthyOpt,
        Api.tasks.sentList, ListParams.query, optEntry, getKey, List.find?, orDefaultJ]
  · intro q h
    rw [taskResource_list_call_log]
    simp [taskListCall, TaskResource.effectiveParams, h, jtruthyOpt, jtruthy,
      Api.tasks.sentList, ListParams.query, optEntry, getKey, List.find?, orDefaultJ]

/-- C1 counterexample: TaskResource.list called with status all sends
status all to the backend instead of omitting the status key, refuting
the claim for the resource handler. -/
theorem claim1_counterexample :
    ((TaskResource.list ⟨"p1"⟩ beOkEmptyData
        (some { status := some (.str "all") })).2.map
      (fun c => getKey c.params "status")) ≠ [none] := by
  have h1 : ((TaskResource.list ⟨"p1"⟩ beOkEmptyData
      (some { status := some (.str "all") })).2.map
      (fun c => getKey c.params "status")) = [some (.str "all")] := rfl
  rw [h1]
  simp

/-- Witness for C1 on concrete inputs. -/
theorem claim1_witness :
    ((listTasks.handler ⟨"p1"⟩ beOkEmptyData {}).2.map
        (fun c => getKey c.params "status")) = [some (.str "in_progress")] ∧
    ((listTasks.handler ⟨"p1"⟩ beOkEmptyData
        { status := some (.str "all") }).2.map
        (fun c => getKey c.params "status")) = [none] ∧
    ((TaskResource.list ⟨"p1"⟩ beOkEmptyData none).2.map
        (fun c => getKey c.params "status")) = [some (.str "in_progress")] ∧
    ((TaskResource.list ⟨"p1"⟩ beOkEmptyData
        (some { status := some (.str "all") })).2.map
        (fun c => getKey c.params "status")) = [some (.str "all")] :=
  ⟨(claim1_status_defaults ⟨"p1"⟩ beOkEmptyData).1 {} rfl,
   (claim1_status_defaults ⟨"p1"⟩ beOkEmptyData).2.1 _ rfl,
   (claim1_status_defaults ⟨"p1"⟩ beOkEmptyData).2.2.1 none rfl,
   (claim1_status_defaults ⟨"p1"⟩ beOkEmptyData).2.2.2 _ rfl⟩

/-- C2 (amended): omitting project_id applies the configured default on
tasks list, tasks create and documents list; a nonempty caller value is
forwarded; but the empty string, being falsy under the or-default
idiom, also falls back to the default instead of suppressing it. -/
theorem claim2_project_scoping (cfg : Config) (s : String) (hs : s ≠ "") :
    (∀ p : Option ListParams, p.bind (fun q => q.project_id) = none →
      (Api.tasks.sentList cfg p).project_id = some (.str cfg.defaultProjectId)) ∧
    (∀ q : ListParams, q.project_id = some (.str s) →
      (Api.tasks.sentList cfg (some q)).project_id = some (.str s)) ∧
    (∀ q : ListParams, q.project_id = some (.str "") →
      (Api.tasks.sentList cfg (some q)).project_id = some (.str cfg.defaultProjectId)) ∧
    (∀ p : Option ListParams, p.bind (fun q => q.project_id) = none →
      (Api.documents.sentList cfg p).project_id = some (.str cfg.defaultProjectId)) ∧
    (∀ q : ListParams, q.project_id = some (.str s) →
      (Api.documents.sentList cfg (some q)).project_id = some (.str s)) ∧
    (∀ q : ListParams, q.project_id = some (.str "") →
      (Api.documents.sentList cfg (some q)).project_id = some (.str cfg.defaultProjectId)) ∧
    (∀ data : List (String × JVal), getKey data "project_id" = none →
      getKey (Api.tasks.sentCreate cfg data) "project_id" = some (.str cfg.defaultProjectId)) ∧
    (∀ data : List (String × JVal), getKey data "project_id" = some (.str s) →
      getKey (Api.tasks.sentCreate cfg data) "project_id" = some (.str s)) ∧
    (∀ data : List (String × JVal), getKey data "project_id" = some (.str "") →
      getKey (Api.tasks.sentCreate cfg data) "project_id" = some (.str cfg.defaultProjectId)) := by
  refine ⟨?_, ?_, ?_, ?_, ?_, ?_, ?_, ?_, ?_⟩
  · intro p h
    simp [Api.tasks.sentList, h, orDefaultJ]
  · intro q h
    simp [Api.tasks.sentList, h, orDefaultJ, jtruthy, hs]
  · intro q h
    simp [Api.tasks.sentList, h, orDefaultJ, jtruthy]
  · intro p h
    simp [Api.documents.sentList, h, orDefaultJ]
  · intro q h
    simp [Api.documents.sentList, h, orDefaultJ, jtruthy, hs]
  · intro q h
    simp [Api.documents.sentList, h, orDefaultJ, jtruthy]
  · intro data h
    rw [Api.tasks.sentCreate, getKey_setKey, h]
    simp [orDefaultJ]
  · intro data h
    rw [Api.tasks.sentCreate, getKey_setKey, h]
    simp [orDefaultJ, jtruthy, hs]
  · intro data h
    rw [Api.tasks.sentCreate, getKey_setKey, h]
    simp [orDefaultJ, jtruthy]

/-- C2 counterexample: an explicit empty-string project_id does not
suppress the default; the default is applied in its place. -/
theorem claim2_counterexample :
    (Api.tasks.sentList ⟨"p-default"⟩
        (some { project_id := some (.str "") })).project_id = some (.str "p-default") ∧
    some (JVal.str "p-default") ≠ some (JVal.str "") := by
  refine ⟨rfl, ?_⟩
  simp

/-- Witness for C2 on concrete inputs. -/
theorem claim2_witness :
    (Api.tasks.sentList ⟨"pd"⟩ none).project_id = some (.str "pd") ∧
    (Api.tasks.sentList ⟨"pd"⟩
        (some { project_id := some (.str "proj-x") })).project_id = some (.str "proj-x") ∧
    (Api.documents.sentList ⟨"pd"⟩
        (some { project_id := some (.str "") })).project_id = some (.str "pd") ∧
    getKey (Api.tasks.sentCreate ⟨"pd"⟩ []) "project_id" = some (.str "pd") :=
  ⟨(claim2_project_scoping ⟨"pd"⟩ "proj-x" (by decide)).1 none rfl,
   (claim2_project_scoping ⟨"pd"⟩ "proj-x" (by decide)).2.1 _ rfl,
   (claim2_project_scoping ⟨"pd"⟩ "proj-x" (by decide)).2.2.2.2.2.1 _ rfl,
   (claim2_project_scoping ⟨"pd"⟩ "proj-x" (by decide)).2.2.2.2.2.2.1 [] rfl⟩

/-- C3: on backend failure the tasks handler returns the empty array
from list, null from read, rethrows from create (on input passing local
validation) and returns null from update; and the errors handler on its
non-status update path returns the locally merged object while issuing
only GET requests, never a persisting one. -/
theorem claim3_error_policy (cfg : Config) (e : String) :
    (∀ (be : Backend) (p : Option ListParams), (∀ c, be c = .error e) →
      (TaskResource.list cfg be p).1 = .arr []) ∧
    (∀ (be : Backend) (uri : String), (∀ c, be c = .error e) →
      (TaskResource.read be uri).1 = none) ∧
    (∀ (be : Backend) (data : TaskResource.CreateData), (∀ c, be c = .error e) →
      jtruthyOpt data.title = true → jtruthyOpt data.project_id = true →
      (TaskResource.create cfg be data).1 = .error e) ∧
    (∀ (be : Backend) (uri : String) (data : TaskResource.UpdateData), (∀ c, be c = .error e) →
      (TaskResource.update be uri data).1 = none) ∧
    (∀ (be : Backend) (now uri : String) (data : ErrorResource.UpdateData) (existing : JVal),
      data.status = none →
      jtruthyOpt data.error_type = true →
      jtruthyOpt data.error_message = true →
      jtruthy existing = true →
      lastSegment uri ≠ "" →
      be { verb := .get, path := "/api/errors/" ++ lastSegment uri } = .ok existing →
      (ErrorResource.update be now uri data).1 =
          .ok (.obj (ErrorResource.mergedUpdate existing data now)) ∧
        (ErrorResource.update be now uri data).2.all (fun c => c.verb == .get) = true) := by
  refine ⟨?_, ?_, ?_, ?_, ?_⟩
  · intro be p hbe
    simp [TaskResource.list, Api.tasks.list, Api.run, hbe]
  · intro be uri hbe
    unfold TaskResource.read
    cases h : lastSegment uri == "" <;>
      simp [h, Api.tasks.get, Api.run, hbe]
  · intro be data hbe ht hp
    simp [TaskResource.create, ht, hp, Api.tasks.create, Api.run, hbe]
  · intro be uri data hbe
    unfold TaskResource.update
    cases h : lastSegment uri == "" <;>
      simp [h, Api.tasks.update, Api.run, hbe]
  · intro be now uri data existing hstatus het hem hex hne hok
    have hne2 : (lastSegment uri == "") = false := by
      simp [hne]
    simp only [jtruthyOpt] at het hem
    unfold ErrorResource.update
    simp [hne2, hstatus, jtruthyOpt, ErrorResource.read, Api.errors.get, Api.run,
      hok, hex, het, hem]

/-- Witness for C3 on concrete inputs. -/
theorem claim3_witness :
    (TaskResource.list ⟨"pd"⟩ beFail none).1 = .arr [] ∧
    (TaskResource.read beFail "wynd://tasks/t1").1 = none ∧
    (TaskResource.create ⟨"pd"⟩ beFail
        { title := some (.str "T"), project_id := some (.str "pd") }).1 = .error "boom" ∧
    (TaskResource.update beFail "wynd://tasks/t1" {}).1 = none ∧
    ((ErrorResource.update beExistingErr "2026-10-12T00:00:00.000Z" "wynd://errors/e1"
        { error_type := some (.str "TypeX"), error_message := some (.str "MsgX") }).1 =
      .ok (.obj (ErrorResource.mergedUpdate existingErr
        { error_type := some (.str "TypeX"), error_message := some (.str "MsgX") }
        "2026-10-12T00:00:00.000Z")) ∧
      (ErrorResource.update beExistingErr "2026-10-12T00:00:00.000Z" "wynd://errors/e1"
        { error_type := some (.str "TypeX"), error_message := some (.str "MsgX") }).2.all
        (fun c => c.verb == .get) = true) :=
  ⟨(claim3_error_policy ⟨"pd"⟩ "boom").1 beFail none (fun _ => rfl),
   (claim3_error_policy ⟨"pd"⟩ "boom").2.1 beFail _ (fun _ => rfl),
   (claim3_error_policy ⟨"pd"⟩ "boom").2.2.1 beFail _ (fun _ => rfl) rfl rfl,
   (claim3_error_policy ⟨"pd"⟩ "boom").2.2.2.1 beFail _ _ (fun _ => rfl),
   (claim3_error_policy ⟨"pd"⟩ "boom").2.2.2.2 beExistingErr _ _ _ existingErr
     rfl rfl rfl rfl (by decide) rfl⟩

/-- C5: a non-2xx response whose JSON body carries a message field X is
rejected as an ApiError whose message is exactly X; a request that
received no response is rejected with the distinct fixed
no-response-received message, independent of any response shaping. -/
theorem claim5_backend_error_messages (status : Nat) (x axMessage axMessage2 : String) :
    (∀ body : JVal, jfield body "message" = some (.str x) →
      handleAxiosFailure (.response status body axMessage) = .apiError x status body) ∧
    (handleAxiosFailure (.request axMessage2) = .plain "No response received from server" ∧
      (handleAxiosFailure (.request axMessage2)).messageOf =
        "No response received from server") := by
  constructor
  · intro body h
    have hobj : hasMessageField body = true := by
      cases body with
      | obj fs =>
        simp only [jfield] at h
        simpa [hasMessageField] using any_key_of_getKey fs "message" (.str x) h
      | null => simp [jfield] at h
      | bool b => simp [jfield] at h
      | num n => simp [jfield] at h
      | str s => simp [jfield] at h
      | arr xs => simp [jfield] at h
    simp [handleAxiosFailure, hobj, h, jsString]
  · exact ⟨rfl, rfl⟩

/-- Witness for C5 at a concrete error body. -/
theorem claim5_witness :
    handleAxiosFailure (.response 404 (.obj [("message", .str "X")]) "Request failed") =
      .apiError "X" 404 (.obj [("message", .str "X")]) ∧
    handleAxiosFailure (.request "timeout") = .plain "No response received from server" :=
  ⟨(claim5_backend_error_messages 404 "X" "Request failed" "timeout").1 _ rfl,
   (claim5_backend_error_messages 404 "X" "Request failed" "timeout").2.1⟩

/-- C6 (amended): a tool call missing a required field returns
success false with a fixed descriptive required-field message and
issues no backend request, for every registered tool that declares a
required field; the tools with a nonempty required list are exactly
create_task, update_task, create_phase, update_phase and
create_document. -/
theorem claim6_required_validation (cfg : Config) (be : Backend) :
    (∀ args : createTask.Args, args.title = none →
      (createTask.handler cfg be args).1.success = false ∧
      (createTask.handler cfg be args).1.error = some "Task title is required" ∧
      (createTask.handler cfg be args).2 = []) ∧
    (∀ args : updateTask.Args, args.task_id = none →
      (updateTask.handler be args).1.success = false ∧
      (updateTask.handler be args).1.error = some "Task ID is required" ∧
      (updateTask.handler be args).2 = []) ∧
    (∀ args : createPhase.Args, args.title = none →
      (createPhase.handler cfg args).1.success = false ∧
      (createPhase.handler cfg args).1.error = some "Phase title is required" ∧
      (createPhase.handler cfg args).2 = []) ∧
    (∀ args : updatePhase.Args, args.phase_id = none →
      (updatePhase.handler args).1.success = false ∧
      (updatePhase.handler args).1.error = some "Phase ID is required" ∧
      (updatePhase.handler args).2 = []) ∧
    (∀ args : createDocument.Args, args.title = none →
      (createDocument.handler cfg be args).1.success = false ∧
      (createDocument.handler cfg be args).1.error = some "Document title is required" ∧
      (createDocument.handler cfg be args).2 = []) ∧
    ((toolsRequired.filter (fun t => !t.2.isEmpty)).map (fun t => t.1) =
      ["create_task", "update_task", "create_phase", "update_phase", "create_document"]) := by
  refine ⟨?_, ?_, ?_, ?_, ?_, by decide⟩
  · intro args h
    simp [createTask.handler, h, jtruthyOpt]
  · intro args h
    simp [updateTask.handler, h, jtruthyOpt]
  · intro args h
    simp [createPhase.handler, h, jtruthyOpt]
  · intro args h
    simp [updatePhase.handler, h, jtruthyOpt]
  · intro args h
    simp [createDocument.handler, h, jtruthyOpt]

/-- C6 counterexample: for update_task, whose required field is named
task_id, the validation error text is the descriptive Task ID is
required, not the literal field name followed by is required. -/
theorem claim6_counterexample :
    updateTask.required = ["task_id"] ∧
    (updateTask.handler beFail {}).1.success = false ∧
    (updateTask.handler beFail {}).1.error = some "Task ID is required" ∧
    some "Task ID is required" ≠ some ("task_id" ++ " is required") := by
  exact ⟨rfl, rfl, rfl, by decide⟩

/-- Witness for C6 at empty argument maps. -/
theorem claim6_witness :
    (createTask.handler ⟨"pd"⟩ beFail {}).1.success = false ∧
    (createTask.handler ⟨"pd"⟩ beFail {}).1.error = some "Task title is required" ∧
    (createTask.handler ⟨"pd"⟩ beFail {}).2 = [] ∧
    (updatePhase.handler {}).1.success = false ∧
    (updatePhase.handler {}).1.error = some "Phase ID is required" ∧
    (updatePhase.handler {}).2 = [] := by
  obtain ⟨h1, h2, h3⟩ := (claim6_required_validation ⟨"pd"⟩ beFail).1 {} rfl
  obtain ⟨h4, h5, h6⟩ := (claim6_required_validation ⟨"pd"⟩ beFail).2.2.2.1 {} rfl
  exact ⟨h1, h2, h3, h4, h5, h6⟩

/-- C8: an OPTIONS request is answered 204 with an empty body and
exactly the three CORS headers, before any handler logic; any method
other than OPTIONS and POST is answered 405 with the method-not-allowed
body and the message handler is never invoked. -/
theorem claim8_transport_branches (mh : Option (JVal → Except String JVal))
    (parse : String → Except String JVal) (req : HttpRequest) :
    (req.method = "OPTIONS" →
      (requestHandler mh parse req).1.status = 204 ∧
      (requestHandler mh parse req).1.body = none ∧
      (requestHandler mh parse req).1.headers = corsHeaders ∧
      (requestHandler mh parse req).2 = false) ∧
    (req.method ≠ "OPTIONS" → req.method ≠ "POST" →
      (requestHandler mh parse req).1.status = 405 ∧
      (requestHandler mh parse req).1.body =
        some (.obj [("error", .str "Method Not Allowed")]) ∧
      (requestHandler mh parse req).2 = false) := by
  constructor
  · intro h
    simp [requestHandler, h]
  · intro h1 h2
    have h1b : (req.method == "OPTIONS") = false := by simp [h1]
    have h2b : (req.method != "POST") = true := by simp [h2]
    simp [requestHandler, h1b, h2b]

/-- Witness for C8 with OPTIONS and GET requests. -/
theorem claim8_witness :
    (requestHandler none (fun _ => .error "x")
        { method := "OPTIONS", url := "/" }).1.status = 204 ∧
    (requestHandler none (fun _ => .error "x")
        { method := "OPTIONS", url := "/" }).1.headers = corsHeaders ∧
    (requestHandler none (fun _ => .error "x")
        { method := "GET", url := "/" }).1.status = 405 ∧
    (requestHandler none (fun _ => .error "x")
        { method := "GET", url := "/" }).2 = false := by
  obtain ⟨o1, _, o3, _⟩ :=
    (claim8_transport_branches none (fun _ => .error "x") { method := "OPTIONS", url := "/" }).1 rfl
  obtain ⟨g1, _, g3⟩ :=
    (claim8_transport_branches none (fun _ => .error "x") { method := "GET", url := "/" }).2
      (by decide) (by decide)
  exact ⟨o1, o3, g1, g3⟩

/-- The single request the create_task tool issues once validation
passes. -/
def createTaskCall (cfg : Config) (args : createTask.Args) : ApiCall :=
  { verb := .post, path := "/api/tasks",
    body := Api.tasks.sentCreate cfg (createTask.taskData cfg args) }

theorem createTask_call_log (cfg : Config) (be : Backend) (args : createTask.Args)
    (h : jtruthyOpt args.title = true) :
    (createTask.handler cfg be args).2 = [createTaskCall cfg args] := by
  unfold createTask.handler Api.tasks.create Api.run createTaskCall
  simp only [h, Bool.not_true, Bool.false_eq_true, if_false]
  cases be { verb := .post, path := "/api/tasks",
             body := Api.tasks.sentCreate cfg (createTask.taskData cfg args) } <;>
    rfl

/-- C10: whenever the create_task tool reaches the backend, the payload
carries the configured default project id and the fixed mcp-client
author, whatever the caller passed; and the tool schema exposes no
project_id property. -/
theorem claim10_create_task_scope (cfg : Config) (be : Backend) (args : createTask.Args)
    (h : jtruthyOpt args.title = true) :
    ((createTask.handler cfg be args).2.map (fun c => getKey c.body "project_id")) =
      [some (.str cfg.defaultProjectId)] ∧
    ((createTask.handler cfg be args).2.map (fun c => getKey c.body "created_by")) =
      [some (.str "mcp-client")] ∧
    "project_id" ∉ createTask.properties := by
  have hcl := createTask_call_log cfg be args h
  cases ht : args.title with
  | none => rw [ht] at h; simp [jtruthyOpt] at h
  | some t =>
    rw [hcl]
    refine ⟨?_, ?_, by decide⟩ <;>
      simp [createTaskCall, createTask.taskData, Api.tasks.sentCreate, ht, setKey,
        removeKey, getKey, List.find?, optEntry, orDefaultJ, ite_self]

/-- Witness for C10 with a caller that even tries to pass its own
project_id. -/
theorem claim10_witness :
    jtruthyOpt (some (JVal.str "T")) = true ∧
    ((createTask.handler ⟨"pd"⟩ beOkEmptyData
        { title := some (.str "T"), project_id := some (.str "attacker-project") }).2.map
      (fun c => getKey c.body "project_id")) = [some (.str "pd")] ∧
    ((createTask.handler ⟨"pd"⟩ beOkEmptyData
        { title := some (.str "T"), project_id := some (.str "attacker-project") }).2.map
      (fun c => getKey c.body "created_by")) = [some (.str "mcp-client")] :=
  ⟨rfl,
   (claim10_create_task_scope ⟨"pd"⟩ beOkEmptyData
     { title := some (.str "T"), project_id := some (.str "attacker-project") } rfl).1,
   (claim10_create_task_scope ⟨"pd"⟩ beOkEmptyData
     { title := some (.str "T"), project_id := some (.str "attacker-project") } rfl).2.1⟩

end Wynd
